import Mathlib

/-!
Verification of the optical-prescription-utils library (EyeTestValidator and
ContactLensValidator) against its specification.  Numbers are modelled as
rationals; JavaScript numeric primitives (Math.round, toFixed, the % remainder
operator) are modelled explicitly below.
-/

namespace JSNum

/-- Model of JavaScript Math.round: nearest integer, halves toward positive
infinity. -/
def jsRound (q : ℚ) : ℤ := ⌊q + 1/2⌋

/-- Model of the integer scaled by 10^f that Number.prototype.toFixed(f)
renders: the integer n minimizing the distance of n / 10^f to the value,
ties going to the larger n. -/
def toFixedInt (f : ℕ) (q : ℚ) : ℤ := ⌊q * (10 ^ f : ℚ) + 1/2⌋

/-- Truncation toward zero, as used by the JavaScript % operator. -/
def trunc (q : ℚ) : ℤ := if 0 ≤ q then ⌊q⌋ else ⌈q⌉

/-- Model of the JavaScript remainder operator a % b (sign of the dividend). -/
def jsMod (a b : ℚ) : ℚ := a - b * (trunc (a / b) : ℚ)

/-- Decimal rendering of a natural number below 100 padded to two digits,
as appears after the decimal point of toFixed(2). -/
def padFrac (m : ℕ) : String := if m < 10 then "0" ++ Nat.repr m else Nat.repr m

/-- String produced by q.toFixed(2) for a nonnegative rational q. -/
def fixed2 (q : ℚ) : String :=
  let n : ℕ := (toFixedInt 2 q).toNat
  Nat.repr (n / 100) ++ "." ++ padFrac (n % 100)

/-- Decimal rendering of an integer. -/
def intRepr (n : ℤ) : String :=
  if n < 0 then "-" ++ Nat.repr (-n).toNat else Nat.repr n.toNat

/-- String produced by q.toFixed(0). -/
def fixed0 (q : ℚ) : String := intRepr (toFixedInt 0 q)

end JSNum

namespace EyeTestValidator

open JSNum

/-- Source: EyeTestValidator.isMultipleOfQuarter.
return Math.round(value * 100) % 25 === 0 -/
def isMultipleOfQuarter (value : ℚ) : Bool :=
  jsRound (value * 100) % 25 == 0

/-- Source: EyeTestValidator.formatPower.  Sign ('+' for value >= 0, '-'
otherwise) followed by |value|.toFixed(2), zero-padded when |value| < 10. -/
def formatPower (value : ℚ) : String :=
  let absValue := |value|
  let fixed := fixed2 absValue
  let sign := if 0 ≤ value then "+" else "-"
  if absValue < 10 then sign ++ "0" ++ fixed else sign ++ fixed

/-- Source: EyeTestValidator.validateSPH. -/
def validateSPH (value : ℚ) : Option String :=
  if ¬ isMultipleOfQuarter value then none
  else if value < -60 ∨ value > 60 then none
  else some (formatPower value)

/-- Source: EyeTestValidator.validateCYL. -/
def validateCYL (value : ℚ) : Option String :=
  if ¬ isMultipleOfQuarter value then none
  else if value < -15 ∨ value > 15 then none
  else some (formatPower value)

/-- Source: EyeTestValidator.validateAxis. -/
def validateAxis (value : ℚ) : Option ℤ :=
  if value < 0 ∨ value > 180 then none
  else some (jsRound value)

/-- Source: EyeTestValidator.validatePD.  Number(value) of a numeric argument
is the argument itself; NaN does not arise for rational inputs.  Note the
source checks only the range, not integrality. -/
def validatePD (value : ℚ) : Option ℚ :=
  if 19 ≤ value ∧ value ≤ 85 then some value else none

/-- Source: EyeTestValidator.validateADD. -/
def validateADD (value : ℚ) : Option String :=
  if ¬ isMultipleOfQuarter value then none
  else if value < 1/4 ∨ value > 6 then none
  else some (formatPower value)

/-- Source: EyeTestValidator.validateSG. -/
def validateSG (value : ℚ) : Option ℚ :=
  if 7 ≤ value ∧ value ≤ 50 then some value else none

/-- Source: EyeTestValidator.validateVertexDistance. -/
def validateVertexDistance (value : ℚ) : Option ℚ :=
  if 10 ≤ value ∧ value ≤ 15 then some value else none

/-- Result record of transformSphCylAxis: the TS object with fields
sph (string), cyl (string), axis (number). -/
structure TransResult where
  sph : String
  cyl : String
  axis : ℚ
  deriving DecidableEq, Repr

/-- Source: EyeTestValidator.transformSphCylAxis.  Null when the cylinder is
falsy (0) or nonpositive; otherwise transposes to negative-cylinder form.
The ?? fallback on validateAxis is modelled with Option.getD. -/
def transformSphCylAxis (sph cyl axis : ℚ) : Option TransResult :=
  if cyl = 0 ∨ cyl ≤ 0 then none
  else
    let newCyl := -|cyl|
    let newSph := sph + cyl
    let newAxis0 := if axis > 90 then axis - 90 else axis + 90
    let newAxis : ℚ := ((validateAxis newAxis0).map (fun n => (n : ℚ))).getD newAxis0
    some ⟨formatPower newSph, formatPower newCyl, newAxis⟩

/-- Source: EyeTestValidator.checkSphCylAxisCombo, on already-coerced values.
A field is absent (null/undefined/empty string) exactly when the option is
none; a present cylinder additionally does not count when its value is 0. -/
def checkSphCylAxisCombo (sph cyl axis : Option ℚ) : Bool :=
  let hasSph := sph.isSome
  let hasCyl := match cyl with
    | none => false
    | some c => decide (c ≠ 0)
  let hasAxis := axis.isSome
  if hasSph && !hasCyl && !hasAxis then true
  else if hasSph && hasCyl && hasAxis then true
  else if hasCyl && hasAxis then true
  else if !hasSph && !hasCyl && !hasAxis then false
  else false

/-- A value stored in the formatted output mapping of validatePrescription:
powers are formatted strings, the axis is a rounded integer, PD / SG / vertex
distance are passed through as numbers. -/
inductive FieldValue where
  | str (s : String)
  | int (n : ℤ)
  | rat (q : ℚ)
  deriving DecidableEq, Repr

/-- Result record of validatePrescription. -/
structure VPResult where
  valid : Bool
  errors : List String
  formatted : List (String × FieldValue)
  deriving DecidableEq, Repr

/-- Input record of validatePrescription; none models null/undefined/empty
string, some q a field that coerces to the number q. -/
structure PrescriptionData where
  sphere : Option ℚ
  cylinder : Option ℚ
  axis : Option ℚ
  add : Option ℚ
  pd : Option ℚ
  sg : Option ℚ
  vertexDistance : Option ℚ
  deriving DecidableEq, Repr

/-- Source: EyeTestValidator.validatePrescription.  Runs the combo check
first and short-circuits on its failure; otherwise validates each present
field, accumulating error messages and formatted fields in source order. -/
def validatePrescription (data : PrescriptionData) : VPResult :=
  if !(checkSphCylAxisCombo data.sphere data.cylinder data.axis) then
    { valid := false
      errors := ["CYL and AXIS must be entered together, or both left empty."]
      formatted := [] }
  else
    let sphR : List String × List (String × FieldValue) :=
      match data.sphere with
      | none => ([], [])
      | some v =>
        match validateSPH v with
        | none => (["SPH must be multiple of 0.25 and between -60.00 and +60.00."], [])
        | some s => ([], [("sphere", FieldValue.str s)])
    let cylR : List String × List (String × FieldValue) :=
      match data.cylinder with
      | none => ([], [])
      | some v =>
        match validateCYL v with
        | none => (["CYL must be multiple of 0.25 and between -15.00 and +15.00."], [])
        | some s => ([], [("cylinder", FieldValue.str s)])
    let axisR : List String × List (String × FieldValue) :=
      match data.axis with
      | none => ([], [])
      | some v =>
        match validateAxis v with
        | none => (["AXIS must be an integer between 0 and 180."], [])
        | some n => ([], [("axis", FieldValue.int n)])
    let addR : List String × List (String × FieldValue) :=
      match data.add with
      | none => ([], [])
      | some v =>
        match validateADD v with
        | none => (["ADD must be multiple of 0.25 and between +0.25 and +6.00."], [])
        | some s => ([], [("add", FieldValue.str s)])
    let pdR : List String × List (String × FieldValue) :=
      match data.pd with
      | none => ([], [])
      | some v =>
        match validatePD v with
        | none => (["PD must be an integer between 19 and 85."], [])
        | some q => ([], [("pd", FieldValue.rat q)])
    let sgR : List String × List (String × FieldValue) :=
      match data.sg with
      | none => ([], [])
      | some v =>
        match validateSG v with
        | none => (["SG must be between 7 and 50."], [])
        | some q => ([], [("sg", FieldValue.rat q)])
    let vdR : List String × List (String × FieldValue) :=
      match data.vertexDistance with
      | none => ([], [])
      | some v =>
        match validateVertexDistance v with
        | none => (["Vertex Distance must be between 10 and 15."], [])
        | some q => ([], [("vertexDistance", FieldValue.rat q)])
    let errors :=
      sphR.1 ++ cylR.1 ++ axisR.1 ++ addR.1 ++ pdR.1 ++ sgR.1 ++ vdR.1
    let formatted :=
      sphR.2 ++ cylR.2 ++ axisR.2 ++ addR.2 ++ pdR.2 ++ sgR.2 ++ vdR.2
    { valid := errors.length == 0
      errors := errors
      formatted := formatted }

end EyeTestValidator

namespace ContactLensValidator

open JSNum

/-- Input record of the converters: the numeric values obtained after the
string coercion / trimming / parseFloat / defaulting layer of the source
(CY, AX, ADD default to 0, BV to 12 when the field is absent). -/
structure CLData where
  SPH : ℚ
  CY : ℚ
  AX : ℚ
  BV : ℚ
  ADD : ℚ
  deriving DecidableEq, Repr

/-- Source: ContactLensValidator.sphericWithoutVertexDistance.
return sphere / (1 - (vertexDistance / 1000) * sphere) -/
def sphericWithoutVertexDistance (sphere vertexDistance : ℚ) : ℚ :=
  sphere / (1 - vertexDistance / 1000 * sphere)

/-- Source: ContactLensValidator.sphericalEquivalent.
return parseFloat((sphere + cylinder / 2).toFixed(2)) -/
def sphericalEquivalent (sphere cylinder : ℚ) : ℚ :=
  (toFixedInt 2 (sphere + cylinder / 2) : ℚ) / 100

/-- Source: ContactLensValidator.roundToNearestQuarter.
return Math.round(num * 4) / 4 -/
def roundToNearestQuarter (num : ℚ) : ℚ :=
  (jsRound (num * 4) : ℚ) / 4

/-- Source: ContactLensValidator.isMultipleOfQuarter.
return value % 0.25 === 0 -/
def isMultipleOfQuarter (value : ℚ) : Bool :=
  jsMod value (1/4) == 0

/-- Source: ContactLensValidator.formatPower.  Sign ('+' for positive and for
zero, '-' for negative) followed by |value|.toFixed(2), zero-padded when
|value| < 10. -/
def formatPower (value : ℚ) : String :=
  let fixed := fixed2 |value|
  let sign := if 0 < value then "+" else if value < 0 then "-" else "+"
  if |value| < 10 then sign ++ "0" ++ fixed else sign ++ fixed

/-- Source: ContactLensValidator.formatNumberCustom, on a numeric value. -/
def formatNumberCustom (value : ℚ) : String :=
  if isMultipleOfQuarter value then formatPower value else ""

/-- Result record of convertToSpheric; exactSPH models the "Exact SPH" key. -/
structure SphericResult where
  SPH : String
  ADD : String
  exactSPH : String
  AX : String
  BV : ℚ
  deriving DecidableEq, Repr

/-- Source: ContactLensValidator.convertToSpheric, after the parsing layer.
formatResultToQuarter maps formatNumberCustom over the SPH and ADD keys. -/
def convertToSpheric (data : CLData) : SphericResult :=
  let sph := data.SPH
  let cyl := data.CY
  let bv := data.BV
  let addValue := data.ADD
  let totalSphere := if |cyl| ≠ 0 then sphericalEquivalent sph cyl else sph
  let sphereContactLens :=
    if |totalSphere| > 4 then sphericWithoutVertexDistance totalSphere bv
    else totalSphere
  let nearestValue := roundToNearestQuarter sphereContactLens
  { SPH := formatNumberCustom nearestValue
    ADD := formatNumberCustom addValue
    exactSPH := formatPower sphereContactLens
    AX := ""
    BV := bv }

/-- Result record of convertToToric; exactSPH / exactCY model the
"Exact SPH" / "Exact CY" keys. -/
structure ToricResult where
  SPH : String
  CY : String
  ADD : String
  AX : String
  exactSPH : String
  exactCY : String
  BV : ℚ
  deriving DecidableEq, Repr

/-- Source: ContactLensValidator.convertToToric, after the parsing layer. -/
def convertToToric (data : CLData) : ToricResult :=
  let sph := data.SPH
  let cyl := data.CY
  let ax := data.AX
  let bv := data.BV
  let addValue := data.ADD
  let spherPower := sphericWithoutVertexDistance sph bv
  let cylinderPower := sphericWithoutVertexDistance (sph + cyl) bv - spherPower
  let nearestCylinder := roundToNearestQuarter cylinderPower
  let nearestSphere := roundToNearestQuarter spherPower
  { SPH := formatNumberCustom nearestSphere
    CY := formatNumberCustom nearestCylinder
    ADD := formatNumberCustom addValue
    AX := fixed0 ax
    exactSPH := formatPower spherPower
    exactCY := formatPower cylinderPower
    BV := bv }

end ContactLensValidator

/-- The regular-expression pattern of the spec for formatted powers, on a
character list: sign, two digits, a point, two digits. -/
def powerPatternList : List Char → Bool
  | [a, b, c, d, e, f] =>
    (a == '+' || a == '-') && b.isDigit && c.isDigit && (d == '.') &&
      e.isDigit && f.isDigit
  | _ => false

/-- The spec pattern for formatted powers, on a string. -/
def matchesPowerPattern (s : String) : Bool := powerPatternList s.data

/-! ## General helper lemmas -/

theorem floor_eq_of_bounds {q : ℚ} {n : ℤ} (h1 : (n : ℚ) ≤ q)
    (h2 : q < (n : ℚ) + 1) : ⌊q⌋ = n :=
  Int.floor_eq_iff.mpr ⟨h1, by exact_mod_cast h2⟩

theorem jsRound_eq_of_bounds {q : ℚ} {n : ℤ} (h1 : (n : ℚ) ≤ q + 1/2)
    (h2 : q + 1/2 < (n : ℚ) + 1) : JSNum.jsRound q = n :=
  floor_eq_of_bounds h1 h2

theorem toFixedInt2_eq_floor (q : ℚ) : JSNum.toFixedInt 2 q = ⌊q * 100 + 1/2⌋ := by
  norm_num [JSNum.toFixedInt]

theorem toFixedInt2_eq_of_bounds {q : ℚ} {n : ℤ} (h1 : (n : ℚ) ≤ q * 100 + 1/2)
    (h2 : q * 100 + 1/2 < (n : ℚ) + 1) : JSNum.toFixedInt 2 q = n := by
  rw [toFixedInt2_eq_floor]; exact floor_eq_of_bounds h1 h2

theorem trunc_intCast (k : ℤ) : JSNum.trunc (k : ℚ) = k := by
  unfold JSNum.trunc
  split <;> simp

/-- Characterization of the JavaScript remainder check value % 0.25 === 0 over
the rationals: it holds exactly on the integer multiples of one quarter. -/
theorem jsMod_quarter_eq_zero_iff (x : ℚ) :
    JSNum.jsMod x (1/4) = 0 ↔ ∃ k : ℤ, x = (k : ℚ) / 4 := by
  unfold JSNum.jsMod
  constructor
  · intro h
    exact ⟨JSNum.trunc (x / (1/4)), by linarith⟩
  · rintro ⟨k, rfl⟩
    have hdiv : ((k : ℚ) / 4) / (1/4) = (k : ℚ) := by ring
    rw [hdiv, trunc_intCast]
    ring

/-- Math.round sends y to an integer nearest to y (halves toward +infinity). -/
theorem jsRound_nearest (y : ℚ) (k : ℤ) :
    |y - (JSNum.jsRound y : ℚ)| ≤ |y - (k : ℚ)| := by
  unfold JSNum.jsRound
  set n := ⌊y + 1/2⌋ with hn
  have h1 : (n : ℚ) ≤ y + 1/2 := Int.floor_le _
  have h2 : y + 1/2 < (n : ℚ) + 1 := Int.lt_floor_add_one _
  have habs : |y - (n : ℚ)| ≤ 1/2 := abs_le.mpr ⟨by linarith, by linarith⟩
  rcases eq_or_ne k n with rfl | hk
  · exact le_refl _
  · have hint : (1 : ℤ) ≤ |k - n| := Int.one_le_abs (sub_ne_zero.mpr hk)
    have hq : (1 : ℚ) ≤ |(k : ℚ) - (n : ℚ)| := by
      have h' : ((1 : ℤ) : ℚ) ≤ ((|k - n| : ℤ) : ℚ) := by exact_mod_cast hint
      rw [Int.cast_abs] at h'
      push_cast at h'
      linarith [h']
    have htri : |(k : ℚ) - (n : ℚ)| ≤ |(k : ℚ) - y| + |y - (n : ℚ)| := by
      calc |(k : ℚ) - (n : ℚ)| = |((k : ℚ) - y) + (y - (n : ℚ))| := by ring_nf
        _ ≤ |(k : ℚ) - y| + |y - (n : ℚ)| := abs_add _ _
    have : (1 : ℚ) / 2 ≤ |(k : ℚ) - y| := by linarith
    rw [abs_sub_comm y (k : ℚ)]
    linarith

/-- The quarter check of ContactLensValidator accepts every k/4. -/
theorem CLV_isMultipleOfQuarter_int_div_four (k : ℤ) :
    ContactLensValidator.isMultipleOfQuarter ((k : ℚ) / 4) = true := by
  unfold ContactLensValidator.isMultipleOfQuarter
  rw [beq_iff_eq]
  exact (jsMod_quarter_eq_zero_iff _).mpr ⟨k, rfl⟩

/-- On rounded quarter values, formatNumberCustom is formatPower. -/
theorem CLV_formatNumberCustom_round (x : ℚ) :
    ContactLensValidator.formatNumberCustom (ContactLensValidator.roundToNearestQuarter x) =
      ContactLensValidator.formatPower (ContactLensValidator.roundToNearestQuarter x) := by
  unfold ContactLensValidator.formatNumberCustom
  rw [if_pos]
  exact CLV_isMultipleOfQuarter_int_div_four (JSNum.jsRound (x * 4))

/-! ## Digit-string helpers -/

/-- The string is a single decimal digit. -/
def oneDigit (s : String) : Bool :=
  match s.data with
  | [c] => c.isDigit
  | _ => false

/-- The string is exactly two decimal digits. -/
def twoDigits (s : String) : Bool :=
  match s.data with
  | [c, d] => c.isDigit && d.isDigit
  | _ => false

theorem oneDigit_repr : ∀ n : ℕ, n < 10 → oneDigit (Nat.repr n) = true := by decide

theorem twoDigits_repr : ∀ n : ℕ, n < 100 → 10 ≤ n → twoDigits (Nat.repr n) = true := by decide

theorem twoDigits_padFrac : ∀ n : ℕ, n < 100 → twoDigits (JSNum.padFrac n) = true := by decide

theorem oneDigit_elim {s : String} (h : oneDigit s = true) :
    ∃ c : Char, s.data = [c] ∧ c.isDigit = true := by
  unfold oneDigit at h
  rcases hs : s.data with _ | ⟨c, _ | ⟨d, t⟩⟩ <;> rw [hs] at h
  · exact absurd h (by simp)
  · exact ⟨c, rfl, h⟩
  · exact absurd h (by simp)

theorem twoDigits_elim {s : String} (h : twoDigits s = true) :
    ∃ c d : Char, s.data = [c, d] ∧ c.isDigit = true ∧ d.isDigit = true := by
  unfold twoDigits at h
  rcases hs : s.data with _ | ⟨c, _ | ⟨d, _ | ⟨e, t⟩⟩⟩ <;> rw [hs] at h
  · exact absurd h (by simp)
  · exact absurd h (by simp)
  · exact ⟨c, d, rfl, by simpa using h⟩
  · exact absurd h (by simp)

/-! ## Evaluation helpers for the two power formatters -/

theorem ETV_formatPower_neg_small {v : ℚ} (n : ℕ) (h1 : v < 0) (h2 : |v| < 10)
    (h3 : JSNum.toFixedInt 2 |v| = (n : ℤ)) :
    EyeTestValidator.formatPower v =
      "-" ++ "0" ++ (Nat.repr (n / 100) ++ "." ++ JSNum.padFrac (n % 100)) := by
  simp only [EyeTestValidator.formatPower, JSNum.fixed2]
  rw [if_pos h2, if_neg (not_le.mpr h1), h3]
  simp

theorem ETV_formatPower_nonneg_small {v : ℚ} (n : ℕ) (h1 : 0 ≤ v) (h2 : |v| < 10)
    (h3 : JSNum.toFixedInt 2 |v| = (n : ℤ)) :
    EyeTestValidator.formatPower v =
      "+" ++ "0" ++ (Nat.repr (n / 100) ++ "." ++ JSNum.padFrac (n % 100)) := by
  simp only [EyeTestValidator.formatPower, JSNum.fixed2]
  rw [if_pos h2, if_pos h1, h3]
  simp

theorem CLV_formatPower_neg_small {v : ℚ} (n : ℕ) (h1 : v < 0) (h2 : |v| < 10)
    (h3 : JSNum.toFixedInt 2 |v| = (n : ℤ)) :
    ContactLensValidator.formatPower v =
      "-" ++ "0" ++ (Nat.repr (n / 100) ++ "." ++ JSNum.padFrac (n % 100)) := by
  simp only [ContactLensValidator.formatPower, JSNum.fixed2]
  rw [if_pos h2, if_neg (asymm h1), if_pos h1, h3]
  simp

theorem CLV_formatPower_nonneg_small {v : ℚ} (n : ℕ) (h1 : 0 ≤ v) (h2 : |v| < 10)
    (h3 : JSNum.toFixedInt 2 |v| = (n : ℤ)) :
    ContactLensValidator.formatPower v =
      "+" ++ "0" ++ (Nat.repr (n / 100) ++ "." ++ JSNum.padFrac (n % 100)) := by
  simp only [ContactLensValidator.formatPower, JSNum.fixed2]
  rcases lt_or_eq_of_le h1 with hpos | hzero
  · rw [if_pos h2, if_pos hpos, h3]
    simp
  · subst hzero
    rw [if_pos h2, if_neg (lt_irrefl (0 : ℚ)), if_neg (lt_irrefl (0 : ℚ)), h3]
    simp

/-! ## Claim C1 -/

theorem roundQuarter_pos_eighth : ContactLensValidator.roundToNearestQuarter (1/8) = 1/4 := by
  unfold ContactLensValidator.roundToNearestQuarter
  rw [show ((1 : ℚ)/8 * 4) = 1/2 by norm_num]
  rw [show JSNum.jsRound (1/2 : ℚ) = 1 from jsRound_eq_of_bounds (by norm_num) (by norm_num)]
  norm_num

theorem roundQuarter_neg_eighth : ContactLensValidator.roundToNearestQuarter (-1/8) = 0 := by
  unfold ContactLensValidator.roundToNearestQuarter
  rw [show ((-1 : ℚ)/8 * 4) = -1/2 by norm_num]
  rw [show JSNum.jsRound (-1/2 : ℚ) = 0 from jsRound_eq_of_bounds (by norm_num) (by norm_num)]
  norm_num

/-- C1 (amended): EyeTestValidator.isMultipleOfQuarter(x) is true iff
round(x*100) mod 25 = 0, while ContactLensValidator.isMultipleOfQuarter(x) is
true iff x is an exact integer multiple of 0.25; both accept every exact
quarter multiple, but they do not agree on every input. -/
theorem c1_quarter_checks (x : ℚ) :
    (EyeTestValidator.isMultipleOfQuarter x = true ↔ JSNum.jsRound (x * 100) % 25 = 0) ∧
    (ContactLensValidator.isMultipleOfQuarter x = true ↔ ∃ k : ℤ, x = (k : ℚ) / 4) ∧
    (∀ k : ℤ, EyeTestValidator.isMultipleOfQuarter ((k : ℚ) / 4) = true ∧
      ContactLensValidator.isMultipleOfQuarter ((k : ℚ) / 4) = true) := by
  refine ⟨?_, ?_, ?_⟩
  · unfold EyeTestValidator.isMultipleOfQuarter
    exact beq_iff_eq
  · unfold ContactLensValidator.isMultipleOfQuarter
    rw [beq_iff_eq]
    exact jsMod_quarter_eq_zero_iff x
  · intro k
    constructor
    · unfold EyeTestValidator.isMultipleOfQuarter
      rw [beq_iff_eq]
      rw [show (k : ℚ)/4 * 100 = ((25 * k : ℤ) : ℚ) by push_cast; ring]
      rw [show JSNum.jsRound ((25 * k : ℤ) : ℚ) = 25 * k from
        jsRound_eq_of_bounds (by push_cast; linarith) (by push_cast; linarith)]
      omega
    · exact CLV_isMultipleOfQuarter_int_div_four k

/-- C1 counterexample: at x = 0.251 the reference predicate round(x*100) % 25 = 0
holds and the EyeTestValidator helper returns true, but the
ContactLensValidator helper returns false, so the claimed biconditional for the
ContactLensValidator component (and the agreement of the two components) fails. -/
theorem c1_counterexample :
    EyeTestValidator.isMultipleOfQuarter (251/1000) = true ∧
    ContactLensValidator.isMultipleOfQuarter (251/1000) = false ∧
    JSNum.jsRound ((251/1000 : ℚ) * 100) % 25 = 0 := by
  have hr : JSNum.jsRound ((251/1000 : ℚ) * 100) = 25 :=
    jsRound_eq_of_bounds (by norm_num) (by norm_num)
  refine ⟨?_, ?_, ?_⟩
  · unfold EyeTestValidator.isMultipleOfQuarter
    rw [beq_iff_eq, hr]
    decide
  · unfold ContactLensValidator.isMultipleOfQuarter
    have hm : JSNum.jsMod (251/1000 : ℚ) (1/4) = 1/1000 := by
      unfold JSNum.jsMod JSNum.trunc
      rw [show ((251/1000 : ℚ) / (1/4)) = 251/250 by norm_num]
      rw [if_pos (by norm_num : (0 : ℚ) ≤ 251/250)]
      rw [show ⌊(251/250 : ℚ)⌋ = 1 from floor_eq_of_bounds (by norm_num) (by norm_num)]
      norm_num
    rw [hm]
    simp only [beq_eq_false_iff_ne, ne_eq]
    norm_num
  · rw [hr]
    decide

/-! ## Claim C5 -/

/-- C5 (amended): roundToNearestQuarter(x) returns a multiple of 0.25 nearest
to x, obtained by rounding x*4 with halves toward +infinity (JavaScript
Math.round), not half-away-from-zero: 0.125 rounds to 0.25, but -0.125 rounds
to 0. -/
theorem c5_roundToNearestQuarter_nearest (x : ℚ) (k : ℤ) :
    (∃ m : ℤ, ContactLensValidator.roundToNearestQuarter x = (m : ℚ) / 4) ∧
    |x - ContactLensValidator.roundToNearestQuarter x| ≤ |x - (k : ℚ) / 4| ∧
    ContactLensValidator.roundToNearestQuarter (1/8) = 1/4 ∧
    ContactLensValidator.roundToNearestQuarter (-1/8) = 0 := by
  refine ⟨⟨JSNum.jsRound (x * 4), rfl⟩, ?_, roundQuarter_pos_eighth, roundQuarter_neg_eighth⟩
  have h := jsRound_nearest (x * 4) k
  have e1 : x - ContactLensValidator.roundToNearestQuarter x
      = (x * 4 - (JSNum.jsRound (x * 4) : ℚ)) / 4 := by
    unfold ContactLensValidator.roundToNearestQuarter
    ring
  have e2 : x - (k : ℚ) / 4 = (x * 4 - (k : ℚ)) / 4 := by ring
  rw [e1, e2, abs_div, abs_div, show |(4 : ℚ)| = 4 by norm_num]
  exact (div_le_div_iff_of_pos_right (by norm_num)).mpr h

/-- C5 counterexample: round-half-away-from-zero on x*4 would send -0.125 to
-0.25, but roundToNearestQuarter(-0.125) evaluates to 0. -/
theorem c5_counterexample :
    ContactLensValidator.roundToNearestQuarter (-1/8) = 0 ∧
    ContactLensValidator.roundToNearestQuarter (-1/8) ≠ -1/4 := by
  refine ⟨roundQuarter_neg_eighth, ?_⟩
  rw [roundQuarter_neg_eighth]
  norm_num

/-! ## Claim C8 -/

/-- C8 (code bug): the claim requires validatePD to reject non-integers, but
the source has no integrality check; at the non-integer input 65.5 it returns
the value unchanged instead of the invalid signal. -/
theorem c8_validatePD_accepts_noninteger :
    EyeTestValidator.validatePD (131/2) = some (131/2) ∧
    (∀ n : ℤ, (131/2 : ℚ) ≠ (n : ℚ)) := by
  constructor
  · unfold EyeTestValidator.validatePD
    have hc : (19 : ℚ) ≤ 131/2 ∧ (131/2 : ℚ) ≤ 85 := by constructor <;> norm_num
    rw [if_pos hc]
  · intro n h
    have h2 : (131 : ℚ) = 2 * (n : ℚ) := by
      field_simp at h
      linarith
    have h3 : (131 : ℤ) = 2 * n := by exact_mod_cast h2
    omega

/-! ## Claim C10 -/

/-- C10: checkSphCylAxisCombo treats a present cylinder equal to 0 as absent:
sphere together with cylinder 0 and an axis fails the check and
validatePrescription rejects it with the combination error and no formatted
fields, while sphere with cylinder 0 and no axis passes the check. -/
theorem c10_cylinder_zero_treated_absent (s a : ℚ) :
    EyeTestValidator.checkSphCylAxisCombo (some s) (some 0) (some a) = false ∧
    EyeTestValidator.checkSphCylAxisCombo (some s) (some 0) none = true ∧
    EyeTestValidator.validatePrescription ⟨some s, some 0, some a, none, none, none, none⟩ =
      ⟨false, ["CYL and AXIS must be entered together, or both left empty."], []⟩ :=
  ⟨rfl, rfl, rfl⟩

/-! ## Claim C7 -/

/-- C7: validatePrescription runs the sphere/cylinder/axis combination check
first and, whenever it fails, returns immediately with valid = false, exactly
the one combination error message, and an empty formatted mapping. -/
theorem c7_combo_short_circuit (d : EyeTestValidator.PrescriptionData)
    (h : EyeTestValidator.checkSphCylAxisCombo d.sphere d.cylinder d.axis = false) :
    EyeTestValidator.validatePrescription d =
      ⟨false, ["CYL and AXIS must be entered together, or both left empty."], []⟩ := by
  unfold EyeTestValidator.validatePrescription
  rw [h]
  rfl

/-- C7 witness: the prescription sphere -3.5, cylinder 1.0, axis null fails
the combination check, and validatePrescription returns invalid with the
combination message and an empty formatted mapping. -/
theorem c7_witness :
    EyeTestValidator.checkSphCylAxisCombo (some (-7/2)) (some 1) none = false ∧
    EyeTestValidator.validatePrescription ⟨some (-7/2), some 1, none, none, none, none, none⟩ =
      ⟨false, ["CYL and AXIS must be entered together, or both left empty."], []⟩ :=
  ⟨rfl, c7_combo_short_circuit ⟨some (-7/2), some 1, none, none, none, none, none⟩ rfl⟩

/-! ## Claim C2 -/

/-- Spec-side description (C2) of the transposed axis: axis+90 when axis ≤ 90
and axis-90 when axis > 90, re-checked through validateAxis with fallback to
the unvalidated computed value when that check fails. -/
def specTransposedAxis (axis : ℚ) : ℚ :=
  let a0 := if axis ≤ 90 then axis + 90 else axis - 90
  ((EyeTestValidator.validateAxis a0).map (fun n => (n : ℚ))).getD a0

/-- C2: transformSphCylAxis returns null exactly when the cylinder is
nonpositive; otherwise it returns the sphere formatted as
formatPower(sph+cyl), the cylinder formatted as formatPower(-|cyl|), and the
transposed axis; in particular the worked example (-2.00, 1.00, 90) and the
zero-cylinder rejection hold. -/
theorem c2_transformSphCylAxis (sph cyl axis : ℚ) :
    (EyeTestValidator.transformSphCylAxis sph cyl axis = none ↔ cyl ≤ 0) ∧
    EyeTestValidator.transformSphCylAxis sph cyl axis =
      (if cyl ≤ 0 then none
       else some ⟨EyeTestValidator.formatPower (sph + cyl),
                  EyeTestValidator.formatPower (-|cyl|),
                  specTransposedAxis axis⟩) ∧
    EyeTestValidator.transformSphCylAxis (-2) 1 90 = some ⟨"-01.00", "-01.00", 180⟩ ∧
    EyeTestValidator.transformSphCylAxis sph 0 axis = none := by
  have haxis : (if axis > 90 then axis - 90 else axis + 90)
      = (if axis ≤ 90 then axis + 90 else axis - 90) := by
    rcases le_or_lt axis 90 with h | h
    · rw [if_neg (not_lt.mpr h), if_pos h]
    · rw [if_pos h, if_neg (not_le.mpr h)]
  have hmain : EyeTestValidator.transformSphCylAxis sph cyl axis =
      (if cyl ≤ 0 then none
       else some ⟨EyeTestValidator.formatPower (sph + cyl),
                  EyeTestValidator.formatPower (-|cyl|),
                  specTransposedAxis axis⟩) := by
    simp only [EyeTestValidator.transformSphCylAxis, specTransposedAxis]
    by_cases hc : cyl ≤ 0
    · rw [if_pos (Or.inr hc), if_pos hc]
    · rw [if_neg (fun h => hc (h.elim le_of_eq id)), if_neg hc, haxis]
  refine ⟨?_, hmain, ?_, ?_⟩
  · rw [hmain]
    by_cases hc : cyl ≤ 0
    · simp [hc]
    · simp [hc]
  · have hfp : EyeTestValidator.formatPower (-1 : ℚ) = "-01.00" := by
      have h3 : JSNum.toFixedInt 2 |(-1 : ℚ)| = ((100 : ℕ) : ℤ) := by
        rw [show |(-1 : ℚ)| = 1 by norm_num]
        exact toFixedInt2_eq_of_bounds (by norm_num) (by norm_num)
      rw [ETV_formatPower_neg_small 100 (by norm_num) (by norm_num) h3]
      rfl
    have haxv : EyeTestValidator.validateAxis 180 = some 180 := by
      unfold EyeTestValidator.validateAxis
      rw [if_neg (by norm_num : ¬ ((180 : ℚ) < 0 ∨ (180 : ℚ) > 180))]
      rw [show JSNum.jsRound (180 : ℚ) = 180 from
        jsRound_eq_of_bounds (by norm_num) (by norm_num)]
    simp only [EyeTestValidator.transformSphCylAxis]
    rw [if_neg (by norm_num : ¬ ((1 : ℚ) = 0 ∨ (1 : ℚ) ≤ 0))]
    rw [if_neg (by norm_num : ¬ ((90 : ℚ) > 90))]
    rw [show (90 : ℚ) + 90 = 180 by norm_num]
    rw [haxv]
    rw [show (-2 : ℚ) + 1 = -1 by norm_num, show -|(1 : ℚ)| = -1 by norm_num, hfp]
    rfl
  · simp [EyeTestValidator.transformSphCylAxis]

/-! ## Claim C6 -/

/-- C6 (amended): validateSPH(x) is non-null iff x passes the code's quarter
check round(x*100) % 25 = 0 (which also accepts near-quarter values such as
0.251, so "multiple of 0.25" holds only up to that rounding) and
-60 ≤ x ≤ 60; the boundaries -60 and 60 are accepted, -60.25 and 60.25
rejected. -/
theorem c6_validateSPH (x : ℚ) :
    ((EyeTestValidator.validateSPH x).isSome = true ↔
      (JSNum.jsRound (x * 100) % 25 = 0 ∧ -60 ≤ x ∧ x ≤ 60)) ∧
    (EyeTestValidator.validateSPH (-60)).isSome = true ∧
    (EyeTestValidator.validateSPH 60).isSome = true ∧
    EyeTestValidator.validateSPH (-241/4) = none ∧
    EyeTestValidator.validateSPH (241/4) = none := by
  have hiff : ∀ y : ℚ, ((EyeTestValidator.validateSPH y).isSome = true ↔
      (JSNum.jsRound (y * 100) % 25 = 0 ∧ -60 ≤ y ∧ y ≤ 60)) := by
    intro y
    unfold EyeTestValidator.validateSPH
    by_cases hq : EyeTestValidator.isMultipleOfQuarter y = true
    · have hq' : JSNum.jsRound (y * 100) % 25 = 0 := by
        unfold EyeTestValidator.isMultipleOfQuarter at hq
        rwa [beq_iff_eq] at hq
      rw [if_neg (not_not_intro hq)]
      by_cases hr : y < -60 ∨ y > 60
      · rw [if_pos hr]
        simp only [Option.isSome_none, Bool.false_eq_true, false_iff]
        rintro ⟨-, hl, hu⟩
        rcases hr with h | h <;> linarith
      · rw [if_neg hr]
        push_neg at hr
        simp only [Option.isSome_some]
        exact ⟨fun _ => ⟨hq', by linarith [hr.1], hr.2⟩, fun _ => by trivial⟩
    · rw [if_pos (by simpa using hq)]
      simp only [Option.isSome_none, Bool.false_eq_true, false_iff]
      rintro ⟨ha, -, -⟩
      exact hq (by unfold EyeTestValidator.isMultipleOfQuarter; rw [beq_iff_eq]; exact ha)
  refine ⟨hiff x, ?_, ?_, ?_, ?_⟩
  · refine (hiff (-60)).mpr ⟨?_, by norm_num, by norm_num⟩
    rw [show JSNum.jsRound ((-60 : ℚ) * 100) = -6000 from
      jsRound_eq_of_bounds (by norm_num) (by norm_num)]
    decide
  · refine (hiff 60).mpr ⟨?_, by norm_num, by norm_num⟩
    rw [show JSNum.jsRound ((60 : ℚ) * 100) = 6000 from
      jsRound_eq_of_bounds (by norm_num) (by norm_num)]
    decide
  · unfold EyeTestValidator.validateSPH
    by_cases hq : EyeTestValidator.isMultipleOfQuarter (-241/4 : ℚ) = true
    · rw [if_neg (not_not_intro hq), if_pos (Or.inl (by norm_num))]
    · rw [if_pos (by simpa using hq)]
  · unfold EyeTestValidator.validateSPH
    by_cases hq : EyeTestValidator.isMultipleOfQuarter (241/4 : ℚ) = true
    · rw [if_neg (not_not_intro hq), if_pos (Or.inr (by norm_num))]
    · rw [if_pos (by simpa using hq)]

/-- C6 counterexample: 0.251 is not a multiple of 0.25 and lies inside
[-60, 60], yet validateSPH(0.251) is non-null, because the code's rounded
scaled check accepts it; so the claimed biconditional fails as stated. -/
theorem c6_counterexample :
    (EyeTestValidator.validateSPH (251/1000)).isSome = true ∧
    (¬ ∃ k : ℤ, (251/1000 : ℚ) = (k : ℚ) / 4) ∧
    (-60 : ℚ) ≤ 251/1000 ∧ (251/1000 : ℚ) ≤ 60 := by
  refine ⟨?_, ?_, by norm_num, by norm_num⟩
  · unfold EyeTestValidator.validateSPH
    have hq : EyeTestValidator.isMultipleOfQuarter (251/1000 : ℚ) = true := by
      unfold EyeTestValidator.isMultipleOfQuarter
      rw [beq_iff_eq]
      rw [show JSNum.jsRound ((251/1000 : ℚ) * 100) = 25 from
        jsRound_eq_of_bounds (by norm_num) (by norm_num)]
      decide
    rw [if_neg (not_not_intro hq),
      if_neg (by norm_num : ¬ ((251/1000 : ℚ) < -60 ∨ (251/1000 : ℚ) > 60))]
    rfl
  · rintro ⟨k, hk⟩
    have h2 : (k : ℚ) = 251/250 := by
      field_simp at hk
      linarith
    have h3 : (250 : ℚ) * (k : ℚ) = 251 := by rw [h2]; ring
    have h4 : (250 : ℤ) * k = 251 := by exact_mod_cast h3
    omega

/-! ## Claim C3 -/

/-- Spec-side description (C3) of the spherical contact-lens power: the total
sphere (the 2-decimal spherical equivalent when the cylinder is nonzero, the
sphere as-is otherwise), vertex-compensated by D / (1 - (bv/1000) D) exactly
when |total sphere| > 4 diopters and unchanged otherwise. -/
def specSphericCompensated (d : ContactLensValidator.CLData) : ℚ :=
  let totalSphere :=
    if d.CY ≠ 0 then ContactLensValidator.sphericalEquivalent d.SPH d.CY else d.SPH
  if 4 < |totalSphere| then totalSphere / (1 - d.BV / 1000 * totalSphere)
  else totalSphere

/-- C3: convertToSpheric rounds the vertex-compensated total sphere to the
nearest quarter for SPH, reports the unrounded compensated value as
"Exact SPH", and clears the axis; on the worked example SPH is "-07.00",
"Exact SPH" is "-06.88" and AX is empty. -/
theorem c3_convertToSpheric (d : ContactLensValidator.CLData) :
    ((ContactLensValidator.convertToSpheric d).SPH =
        ContactLensValidator.formatPower
          (ContactLensValidator.roundToNearestQuarter (specSphericCompensated d)) ∧
      (ContactLensValidator.convertToSpheric d).exactSPH =
        ContactLensValidator.formatPower (specSphericCompensated d) ∧
      (ContactLensValidator.convertToSpheric d).AX = "") ∧
    ((ContactLensValidator.convertToSpheric ⟨-7, -1, 90, 12, 0⟩).SPH = "-07.00" ∧
      (ContactLensValidator.convertToSpheric ⟨-7, -1, 90, 12, 0⟩).exactSPH = "-06.88" ∧
      (ContactLensValidator.convertToSpheric ⟨-7, -1, 90, 12, 0⟩).AX = "") := by
  have hgen : ∀ e : ContactLensValidator.CLData,
      (ContactLensValidator.convertToSpheric e).SPH =
        ContactLensValidator.formatPower
          (ContactLensValidator.roundToNearestQuarter (specSphericCompensated e)) ∧
      (ContactLensValidator.convertToSpheric e).exactSPH =
        ContactLensValidator.formatPower (specSphericCompensated e) ∧
      (ContactLensValidator.convertToSpheric e).AX = "" := by
    intro e
    have hX : (if |(if |e.CY| ≠ 0 then ContactLensValidator.sphericalEquivalent e.SPH e.CY
                    else e.SPH)| > 4
               then ContactLensValidator.sphericWithoutVertexDistance
                 (if |e.CY| ≠ 0 then ContactLensValidator.sphericalEquivalent e.SPH e.CY
                  else e.SPH) e.BV
               else (if |e.CY| ≠ 0 then ContactLensValidator.sphericalEquivalent e.SPH e.CY
                     else e.SPH))
        = specSphericCompensated e := by
      simp only [specSphericCompensated, ContactLensValidator.sphericWithoutVertexDistance,
        ne_eq, abs_eq_zero]
    refine ⟨?_, ?_, ?_⟩
    · simp only [ContactLensValidator.convertToSpheric, hX]
      exact CLV_formatNumberCustom_round _
    · simp only [ContactLensValidator.convertToSpheric, hX]
    · simp only [ContactLensValidator.convertToSpheric]
  have hspec0 : specSphericCompensated ⟨-7, -1, 90, 12, 0⟩ = -750/109 := by
    simp only [specSphericCompensated, ContactLensValidator.sphericalEquivalent]
    rw [if_pos (by norm_num : (-1 : ℚ) ≠ 0)]
    rw [show ((-7 : ℚ) + (-1) / 2) = -15/2 by norm_num]
    rw [show JSNum.toFixedInt 2 (-15/2 : ℚ) = ((-750 : ℤ)) from
      toFixedInt2_eq_of_bounds (by norm_num) (by norm_num)]
    rw [show (((-750 : ℤ) : ℚ)) / 100 = -15/2 by norm_num]
    rw [if_pos (show (4 : ℚ) < |(-15/2 : ℚ)| by
      rw [show |(-15/2 : ℚ)| = 15/2 by norm_num]; norm_num)]
    norm_num
  have hround0 : ContactLensValidator.roundToNearestQuarter (-750/109 : ℚ) = -7 := by
    unfold ContactLensValidator.roundToNearestQuarter
    rw [show ((-750 : ℚ)/109 * 4) = -3000/109 by norm_num]
    rw [show JSNum.jsRound (-3000/109 : ℚ) = -28 from
      jsRound_eq_of_bounds (by norm_num) (by norm_num)]
    norm_num
  have hfp7 : ContactLensValidator.formatPower (-7 : ℚ) = "-07.00" := by
    have h3 : JSNum.toFixedInt 2 |(-7 : ℚ)| = ((700 : ℕ) : ℤ) := by
      rw [show |(-7 : ℚ)| = 7 by norm_num]
      exact toFixedInt2_eq_of_bounds (by norm_num) (by norm_num)
    rw [CLV_formatPower_neg_small 700 (by norm_num) (by norm_num) h3]
    rfl
  have hfp688 : ContactLensValidator.formatPower (-750/109 : ℚ) = "-06.88" := by
    have h3 : JSNum.toFixedInt 2 |(-750/109 : ℚ)| = ((688 : ℕ) : ℤ) := by
      rw [show |(-750/109 : ℚ)| = 750/109 by norm_num]
      exact toFixedInt2_eq_of_bounds (by norm_num) (by norm_num)
    rw [CLV_formatPower_neg_small 688 (by norm_num)
      (by rw [show |(-750/109 : ℚ)| = 750/109 by norm_num]; norm_num) h3]
    rfl
  refine ⟨hgen d, ?_, ?_, (hgen _).2.2⟩
  · rw [(hgen _).1, hspec0, hround0, hfp7]
  · rw [(hgen _).2.1, hspec0, hfp688]

/-! ## Claim C4 -/

/-- Spec-side description (C4): vertex compensation applied on the sphere
meridian. -/
def specToricSpherePower (d : ContactLensValidator.CLData) : ℚ :=
  d.SPH / (1 - d.BV / 1000 * d.SPH)

/-- Spec-side description (C4): cylinder power as the compensated
sphere+cylinder meridian minus the compensated sphere meridian. -/
def specToricCylinderPower (d : ContactLensValidator.CLData) : ℚ :=
  (d.SPH + d.CY) / (1 - d.BV / 1000 * (d.SPH + d.CY)) - specToricSpherePower d

/-- C4: convertToToric compensates the two principal meridians independently,
rounds each to the nearest quarter, and echoes the axis as an integer-valued
string; on the worked example SPH is "-04.75", CY is "-01.00", AX is "90". -/
theorem c4_convertToToric (d : ContactLensValidator.CLData) :
    ((ContactLensValidator.convertToToric d).SPH =
        ContactLensValidator.formatPower
          (ContactLensValidator.roundToNearestQuarter (specToricSpherePower d)) ∧
      (ContactLensValidator.convertToToric d).CY =
        ContactLensValidator.formatPower
          (ContactLensValidator.roundToNearestQuarter (specToricCylinderPower d)) ∧
      (ContactLensValidator.convertToToric d).AX = JSNum.fixed0 d.AX) ∧
    ((ContactLensValidator.convertToToric ⟨-5, -1, 90, 12, 0⟩).SPH = "-04.75" ∧
      (ContactLensValidator.convertToToric ⟨-5, -1, 90, 12, 0⟩).CY = "-01.00" ∧
      (ContactLensValidator.convertToToric ⟨-5, -1, 90, 12, 0⟩).AX = "90") := by
  have hgen : ∀ e : ContactLensValidator.CLData,
      (ContactLensValidator.convertToToric e).SPH =
        ContactLensValidator.formatPower
          (ContactLensValidator.roundToNearestQuarter (specToricSpherePower e)) ∧
      (ContactLensValidator.convertToToric e).CY =
        ContactLensValidator.formatPower
          (ContactLensValidator.roundToNearestQuarter (specToricCylinderPower e)) ∧
      (ContactLensValidator.convertToToric e).AX = JSNum.fixed0 e.AX := by
    intro e
    refine ⟨?_, ?_, ?_⟩
    · simp only [ContactLensValidator.convertToToric, specToricSpherePower,
        ContactLensValidator.sphericWithoutVertexDistance]
      exact CLV_formatNumberCustom_round _
    · simp only [ContactLensValidator.convertToToric, specToricCylinderPower,
        specToricSpherePower, ContactLensValidator.sphericWithoutVertexDistance]
      exact CLV_formatNumberCustom_round _
    · simp only [ContactLensValidator.convertToToric]
  have hsp : specToricSpherePower ⟨-5, -1, 90, 12, 0⟩ = -250/53 := by
    simp only [specToricSpherePower]
    norm_num
  have hcp : specToricCylinderPower ⟨-5, -1, 90, 12, 0⟩ = -3125/3551 := by
    simp only [specToricCylinderPower, specToricSpherePower]
    norm_num
  have hr1 : ContactLensValidator.roundToNearestQuarter (-250/53 : ℚ) = -19/4 := by
    unfold ContactLensValidator.roundToNearestQuarter
    rw [show ((-250 : ℚ)/53 * 4) = -1000/53 by norm_num]
    rw [show JSNum.jsRound (-1000/53 : ℚ) = -19 from
      jsRound_eq_of_bounds (by norm_num) (by norm_num)]
    norm_num
  have hr2 : ContactLensValidator.roundToNearestQuarter (-3125/3551 : ℚ) = -1 := by
    unfold ContactLensValidator.roundToNearestQuarter
    rw [show ((-3125 : ℚ)/3551 * 4) = -12500/3551 by norm_num]
    rw [show JSNum.jsRound (-12500/3551 : ℚ) = -4 from
      jsRound_eq_of_bounds (by norm_num) (by norm_num)]
    norm_num
  have hf1 : ContactLensValidator.formatPower (-19/4 : ℚ) = "-04.75" := by
    have h3 : JSNum.toFixedInt 2 |(-19/4 : ℚ)| = ((475 : ℕ) : ℤ) := by
      rw [show |(-19/4 : ℚ)| = 19/4 by norm_num]
      exact toFixedInt2_eq_of_bounds (by norm_num) (by norm_num)
    rw [CLV_formatPower_neg_small 475 (by norm_num)
      (by rw [show |(-19/4 : ℚ)| = 19/4 by norm_num]; norm_num) h3]
    rfl
  have hf2 : ContactLensValidator.formatPower (-1 : ℚ) = "-01.00" := by
    have h3 : JSNum.toFixedInt 2 |(-1 : ℚ)| = ((100 : ℕ) : ℤ) := by
      rw [show |(-1 : ℚ)| = 1 by norm_num]
      exact toFixedInt2_eq_of_bounds (by norm_num) (by norm_num)
    rw [CLV_formatPower_neg_small 100 (by norm_num) (by norm_num) h3]
    rfl
  have hax : JSNum.fixed0 (90 : ℚ) = "90" := by
    unfold JSNum.fixed0 JSNum.toFixedInt
    rw [show ((90 : ℚ) * (10 ^ 0 : ℚ) + 1/2) = 181/2 by norm_num]
    rw [show ⌊(181/2 : ℚ)⌋ = 90 from floor_eq_of_bounds (by norm_num) (by norm_num)]
    rfl
  refine ⟨hgen d, ?_, ?_, ?_⟩
  · rw [(hgen _).1, hsp, hr1, hf1]
  · rw [(hgen _).2.1, hcp, hr2, hf2]
  · rw [(hgen _).2.2]
    exact hax

/-! ## Claim C9: shape of the formatted power strings -/

theorem fixed2_shape_small {q : ℚ} (h0 : 0 ≤ q) (h999 : JSNum.toFixedInt 2 q ≤ 999) :
    ∃ c1 c2 c3 : Char, (JSNum.fixed2 q).data = [c1, '.', c2, c3] ∧
      c1.isDigit = true ∧ c2.isDigit = true ∧ c3.isDigit = true := by
  have hnn : 0 ≤ JSNum.toFixedInt 2 q := by
    rw [toFixedInt2_eq_floor]
    apply Int.floor_nonneg.mpr
    have : 0 ≤ q * 100 := mul_nonneg h0 (by norm_num)
    linarith
  obtain ⟨n, hval⟩ : ∃ n : ℕ, JSNum.toFixedInt 2 q = (n : ℤ) :=
    ⟨_, (Int.toNat_of_nonneg hnn).symm⟩
  have hn999 : n ≤ 999 := by
    have := hval ▸ h999
    exact_mod_cast this
  obtain ⟨c1, hc1, hd1⟩ := oneDigit_elim (oneDigit_repr (n / 100) (by omega))
  obtain ⟨c2, c3, hc23, hd2, hd3⟩ := twoDigits_elim (twoDigits_padFrac (n % 100) (by omega))
  refine ⟨c1, c2, c3, ?_, hd1, hd2, hd3⟩
  simp only [JSNum.fixed2, hval, Int.toNat_natCast]
  rw [String.data_append, String.data_append, hc1, hc23]
  rfl

theorem fixed2_shape_big {q : ℚ} (h10 : 10 ≤ q) (h9999 : JSNum.toFixedInt 2 q ≤ 9999) :
    ∃ c1 c2 c3 c4 : Char, (JSNum.fixed2 q).data = [c1, c2, '.', c3, c4] ∧
      c1.isDigit = true ∧ c2.isDigit = true ∧ c3.isDigit = true ∧ c4.isDigit = true := by
  have hlow : (1000 : ℤ) ≤ JSNum.toFixedInt 2 q := by
    rw [toFixedInt2_eq_floor]
    apply Int.le_floor.mpr
    push_cast
    linarith
  obtain ⟨n, hval⟩ : ∃ n : ℕ, JSNum.toFixedInt 2 q = (n : ℤ) :=
    ⟨_, (Int.toNat_of_nonneg (by linarith)).symm⟩
  have hn9999 : n ≤ 9999 := by
    have := hval ▸ h9999
    exact_mod_cast this
  have hn1000 : 1000 ≤ n := by
    have := hval ▸ hlow
    exact_mod_cast this
  obtain ⟨c1, c2, hc12, hd1, hd2⟩ :=
    twoDigits_elim (twoDigits_repr (n / 100) (by omega) (by omega))
  obtain ⟨c3, c4, hc34, hd3, hd4⟩ := twoDigits_elim (twoDigits_padFrac (n % 100) (by omega))
  refine ⟨c1, c2, c3, c4, ?_, hd1, hd2, hd3, hd4⟩
  simp only [JSNum.fixed2, hval, Int.toNat_natCast]
  rw [String.data_append, String.data_append, hc12, hc34]
  rfl

theorem pattern_assemble_small (s : String) (hs : s = "+" ∨ s = "-") {q : ℚ}
    (h0 : 0 ≤ q) (h999 : JSNum.toFixedInt 2 q ≤ 999) :
    powerPatternList ((s ++ "0" ++ JSNum.fixed2 q).data) = true ∧
    (s ++ "0" ++ JSNum.fixed2 q).data.head? = s.data.head? := by
  obtain ⟨c1, c2, c3, hdata, h1, h2, h3⟩ := fixed2_shape_small h0 h999
  rw [String.data_append, String.data_append, hdata]
  rcases hs with rfl | rfl <;>
    exact ⟨by simp [powerPatternList, h1, h2, h3], rfl⟩

theorem pattern_assemble_big (s : String) (hs : s = "+" ∨ s = "-") {q : ℚ}
    (h10 : 10 ≤ q) (h9999 : JSNum.toFixedInt 2 q ≤ 9999) :
    powerPatternList ((s ++ JSNum.fixed2 q).data) = true ∧
    (s ++ JSNum.fixed2 q).data.head? = s.data.head? := by
  obtain ⟨c1, c2, c3, c4, hdata, h1, h2, h3, h4⟩ := fixed2_shape_big h10 h9999
  rw [String.data_append, hdata]
  rcases hs with rfl | rfl <;>
    exact ⟨by simp [powerPatternList, h1, h2, h3, h4], rfl⟩

theorem ETV_formatPower_pattern (x : ℚ)
    (h : (|x| < 10 ∧ JSNum.toFixedInt 2 |x| ≤ 999) ∨
      (10 ≤ |x| ∧ JSNum.toFixedInt 2 |x| ≤ 9999)) :
    matchesPowerPattern (EyeTestValidator.formatPower x) = true ∧
    (EyeTestValidator.formatPower x).data.head? = some (if 0 ≤ x then '+' else '-') := by
  unfold matchesPowerPattern
  simp only [EyeTestValidator.formatPower]
  by_cases habs : |x| < 10
  · have h999 : JSNum.toFixedInt 2 |x| ≤ 999 := by
      rcases h with ⟨-, h⟩ | ⟨h10, -⟩
      · exact h
      · exact absurd habs (not_lt.mpr h10)
    rw [if_pos habs]
    by_cases hx : 0 ≤ x
    · rw [if_pos hx]
      obtain ⟨hp, hh⟩ := pattern_assemble_small "+" (Or.inl rfl) (abs_nonneg x) h999
      exact ⟨hp, by rw [hh, if_pos hx]; rfl⟩
    · rw [if_neg hx]
      obtain ⟨hp, hh⟩ := pattern_assemble_small "-" (Or.inr rfl) (abs_nonneg x) h999
      exact ⟨hp, by rw [hh, if_neg hx]; rfl⟩
  · have h10 : 10 ≤ |x| := by
      rcases h with ⟨hlt, -⟩ | ⟨h10, -⟩
      · exact absurd hlt habs
      · exact h10
    have h9999 : JSNum.toFixedInt 2 |x| ≤ 9999 := by
      rcases h with ⟨hlt, -⟩ | ⟨-, h⟩
      · exact absurd hlt habs
      · exact h
    rw [if_neg habs]
    by_cases hx : 0 ≤ x
    · rw [if_pos hx]
      obtain ⟨hp, hh⟩ := pattern_assemble_big "+" (Or.inl rfl) h10 h9999
      exact ⟨hp, by rw [hh, if_pos hx]; rfl⟩
    · rw [if_neg hx]
      obtain ⟨hp, hh⟩ := pattern_assemble_big "-" (Or.inr rfl) h10 h9999
      exact ⟨hp, by rw [hh, if_neg hx]; rfl⟩

theorem CLV_formatPower_pattern (x : ℚ)
    (h : (|x| < 10 ∧ JSNum.toFixedInt 2 |x| ≤ 999) ∨
      (10 ≤ |x| ∧ JSNum.toFixedInt 2 |x| ≤ 9999)) :
    matchesPowerPattern (ContactLensValidator.formatPower x) = true ∧
    (ContactLensValidator.formatPower x).data.head? = some (if 0 ≤ x then '+' else '-') := by
  unfold matchesPowerPattern
  simp only [ContactLensValidator.formatPower]
  have hsgn : (if 0 < x then "+" else if x < 0 then "-" else "+")
      = (if 0 ≤ x then "+" else "-") := by
    by_cases hx : 0 ≤ x
    · rcases lt_or_eq_of_le hx with hpos | hzero
      · rw [if_pos hpos, if_pos hx]
      · rw [← hzero, if_neg (lt_irrefl (0 : ℚ)), if_neg (lt_irrefl (0 : ℚ)),
          if_pos (le_refl (0 : ℚ))]
    · rw [if_neg (fun hlt => hx (le_of_lt hlt)), if_pos (lt_of_not_ge hx), if_neg hx]
  rw [hsgn]
  by_cases habs : |x| < 10
  · have h999 : JSNum.toFixedInt 2 |x| ≤ 999 := by
      rcases h with ⟨-, h⟩ | ⟨h10, -⟩
      · exact h
      · exact absurd habs (not_lt.mpr h10)
    rw [if_pos habs]
    by_cases hx : 0 ≤ x
    · rw [if_pos hx]
      obtain ⟨hp, hh⟩ := pattern_assemble_small "+" (Or.inl rfl) (abs_nonneg x) h999
      exact ⟨hp, by rw [hh, if_pos hx]; rfl⟩
    · rw [if_neg hx]
      obtain ⟨hp, hh⟩ := pattern_assemble_small "-" (Or.inr rfl) (abs_nonneg x) h999
      exact ⟨hp, by rw [hh, if_neg hx]; rfl⟩
  · have h10 : 10 ≤ |x| := by
      rcases h with ⟨hlt, -⟩ | ⟨h10, -⟩
      · exact absurd hlt habs
      · exact h10
    have h9999 : JSNum.toFixedInt 2 |x| ≤ 9999 := by
      rcases h with ⟨hlt, -⟩ | ⟨-, h⟩
      · exact absurd hlt habs
      · exact h
    rw [if_neg habs]
    by_cases hx : 0 ≤ x
    · rw [if_pos hx]
      obtain ⟨hp, hh⟩ := pattern_assemble_big "+" (Or.inl rfl) h10 h9999
      exact ⟨hp, by rw [hh, if_pos hx]; rfl⟩
    · rw [if_neg hx]
      obtain ⟨hp, hh⟩ := pattern_assemble_big "-" (Or.inr rfl) h10 h9999
      exact ⟨hp, by rw [hh, if_neg hx]; rfl⟩

/-- C9 (amended): whenever the magnitude keeps two integer digits after the
two-decimal rounding (round(|x|*100) ≤ 999 when |x| < 10, or
round(|x|*100) ≤ 9999 when |x| ≥ 10), both formatPower implementations
produce a string matching the sign, two digits, point, two digits pattern,
with '+' for x ≥ 0 and '-' for x < 0; zero maps to "+00.00" in both. -/
theorem c9_formatPower_shape (x : ℚ)
    (h : (|x| < 10 ∧ JSNum.toFixedInt 2 |x| ≤ 999) ∨
      (10 ≤ |x| ∧ JSNum.toFixedInt 2 |x| ≤ 9999)) :
    matchesPowerPattern (EyeTestValidator.formatPower x) = true ∧
    matchesPowerPattern (ContactLensValidator.formatPower x) = true ∧
    (EyeTestValidator.formatPower x).data.head? = some (if 0 ≤ x then '+' else '-') ∧
    (ContactLensValidator.formatPower x).data.head? = some (if 0 ≤ x then '+' else '-') ∧
    EyeTestValidator.formatPower 0 = "+00.00" ∧
    ContactLensValidator.formatPower 0 = "+00.00" := by
  obtain ⟨he1, he2⟩ := ETV_formatPower_pattern x h
  obtain ⟨hc1, hc2⟩ := CLV_formatPower_pattern x h
  have hz : JSNum.toFixedInt 2 |(0 : ℚ)| = ((0 : ℕ) : ℤ) := by
    rw [show |(0 : ℚ)| = 0 by norm_num]
    exact toFixedInt2_eq_of_bounds (by norm_num) (by norm_num)
  refine ⟨he1, hc1, he2, hc2, ?_, ?_⟩
  · rw [ETV_formatPower_nonneg_small 0 (le_refl (0 : ℚ))
      (by rw [show |(0 : ℚ)| = 0 by norm_num]; norm_num) hz]
    rfl
  · rw [CLV_formatPower_nonneg_small 0 (le_refl (0 : ℚ))
      (by rw [show |(0 : ℚ)| = 0 by norm_num]; norm_num) hz]
    rfl

/-- C9 witness: the hypothesis and conclusion at the concrete input -3.5. -/
theorem c9_witness :
    ((|(-7/2 : ℚ)| < 10 ∧ JSNum.toFixedInt 2 |(-7/2 : ℚ)| ≤ 999) ∨
      (10 ≤ |(-7/2 : ℚ)| ∧ JSNum.toFixedInt 2 |(-7/2 : ℚ)| ≤ 9999)) ∧
    (matchesPowerPattern (EyeTestValidator.formatPower (-7/2)) = true ∧
      matchesPowerPattern (ContactLensValidator.formatPower (-7/2)) = true ∧
      (EyeTestValidator.formatPower (-7/2)).data.head?
        = some (if 0 ≤ (-7/2 : ℚ) then '+' else '-') ∧
      (ContactLensValidator.formatPower (-7/2)).data.head?
        = some (if 0 ≤ (-7/2 : ℚ) then '+' else '-') ∧
      EyeTestValidator.formatPower 0 = "+00.00" ∧
      ContactLensValidator.formatPower 0 = "+00.00") := by
  have habs : |(-7/2 : ℚ)| = 7/2 := by norm_num
  have h : (|(-7/2 : ℚ)| < 10 ∧ JSNum.toFixedInt 2 |(-7/2 : ℚ)| ≤ 999) ∨
      (10 ≤ |(-7/2 : ℚ)| ∧ JSNum.toFixedInt 2 |(-7/2 : ℚ)| ≤ 9999) := by
    left
    constructor
    · rw [habs]; norm_num
    · rw [habs, show JSNum.toFixedInt 2 (7/2 : ℚ) = 350 from
        toFixedInt2_eq_of_bounds (by norm_num) (by norm_num)]
      norm_num
  exact ⟨h, c9_formatPower_shape (-7/2) h⟩

/-- C9 counterexample: at x = 100 both formatPower outputs are "+100.00",
which has three integer digits and does not match the claimed pattern, so the
claimed totality over all finite numbers fails. -/
theorem c9_counterexample :
    matchesPowerPattern (EyeTestValidator.formatPower 100) = false ∧
    matchesPowerPattern (ContactLensValidator.formatPower 100) = false := by
  have habs : |(100 : ℚ)| = 100 := by norm_num
  have hn : JSNum.toFixedInt 2 (100 : ℚ) = 10000 :=
    toFixedInt2_eq_of_bounds (by norm_num) (by norm_num)
  constructor
  · simp only [EyeTestValidator.formatPower, JSNum.fixed2, habs]
    rw [if_neg (by norm_num : ¬ (100 : ℚ) < 10), if_pos (by norm_num : (0 : ℚ) ≤ 100), hn]
    rfl
  · simp only [ContactLensValidator.formatPower, JSNum.fixed2, habs]
    rw [if_neg (by norm_num : ¬ (100 : ℚ) < 10), if_pos (by norm_num : (0 : ℚ) < 100), hn]
    rfl
